import Mathlib

/-!
Verification development for src/main.py of image_finder_project.

The file shallowly embeds the decision logic of the program: the
retry-wrapped HTTP fetch (make_request_with_retries, lines 20 to 35), the
two search adapters (search_images_google, lines 50 to 63, and
search_images_duckduckgo, lines 65 to 78), the relevance scoring loop
(evaluate_relevance, lines 80 to 110) and the configuration gate plus
orchestration of main (lines 112 to 160).

External effects are modelled as explicit inputs: the network is a
function from the attempt number to the outcome of that GET, the language
model is a function from (news text, image url) to the completion string,
and the Python float builtin applied by evaluate_relevance to a completion
is a function from the stripped string to an optional Python float value
(none standing for a ValueError).  Python dictionaries coming back from
the providers are modelled with exactly the keys the program reads.
-/

set_option autoImplicit false

namespace ImageFinder

/-- One image search result dict as consumed by evaluate_relevance: the
program only ever reads the keys link, thumbnail and title, each either
absent (none) or holding a string.  Any further provider payload does not
influence the program. -/
structure Candidate where
  link : Option String
  thumbnail : Option String
  title : Option String
deriving DecidableEq, Repr

/-- Python float values as far as the scoring loop distinguishes them:
nan, minus infinity (the initial sentinel, line 87), finite values
(modelled as rationals), and plus infinity. -/
inductive PyFloat where
  | nan
  | ninf
  | finite (q : ℚ)
  | inf
deriving DecidableEq, Repr

/-- Python strict comparison a < b on floats (line 104 reads
score > best_score, that is lt best_score score): every comparison
involving nan is false, minus infinity is below every non-nan value,
plus infinity above every non-nan value. -/
def PyFloat.lt : PyFloat → PyFloat → Bool
  | .nan, _ => false
  | _, .nan => false
  | .ninf, .ninf => false
  | .ninf, _ => true
  | .finite _, .ninf => false
  | .finite a, .finite b => decide (a < b)
  | .finite _, .inf => true
  | .inf, _ => false

/-- Python truthiness of an optional string (an environment variable or a
dict value): None and the empty string are falsy, line 39, 82, 90, 115. -/
def strTruthy : Option String → Bool
  | none => false
  | some s => decide (s ≠ "")

/-- Python expression a or b on optional strings, as in line 89:
the left operand when it is truthy, otherwise the right operand. -/
def pyOr (a b : Option String) : Option String :=
  match a with
  | some s => if s = "" then b else some s
  | none => b

/-- Lines 89 to 91: image_url = image.get(link) or image.get(thumbnail),
combined with the falsiness test that skips the candidate; the result is
some url exactly when the loop body proceeds with that url. -/
def resolveUrl (c : Candidate) : Option String :=
  match pyOr c.link c.thumbnail with
  | some s => if s = "" then none else some s
  | none => none

/-- The final pick of evaluate_relevance, lines 106 to 109: the url and
the description (title with the placeholder default). -/
structure BestImage where
  url : String
  description : String
deriving DecidableEq, Repr

/-- Lines 100 to 103: float(score_text.strip()) under try, a ValueError
(parse result none) giving score = 0. -/
def scoreFromParse : Option PyFloat → PyFloat
  | none => .finite 0
  | some f => f

/-- The score the loop computes for a candidate with resolved url, lines
99 to 103: the model completion for (text, url), stripped, fed to the
float builtin, with parse failure coerced to 0. -/
def scoreOf (parse : String → Option PyFloat) (llm : String → String → String)
    (text url : String) : PyFloat :=
  scoreFromParse (parse ((llm text url).trim))

/-- The for loop of evaluate_relevance, lines 88 to 109, with the two
accumulator variables best_image and best_score passed explicitly. -/
def evalLoop (parse : String → Option PyFloat) (llm : String → String → String)
    (text : String) : List Candidate → Option BestImage → PyFloat → Option BestImage
  | [], best_image, _ => best_image
  | image :: rest, best_image, best_score =>
    match resolveUrl image with
    | none => evalLoop parse llm text rest best_image best_score
    | some image_url =>
      let score := scoreOf parse llm text image_url
      if PyFloat.lt best_score score then
        evalLoop parse llm text rest
          (some ⟨image_url, image.title.getD "Нет описания"⟩) score
      else
        evalLoop parse llm text rest best_image best_score

/-- evaluate_relevance, lines 80 to 110, for a given float parse oracle
and language model: best_image starts as None and best_score as minus
infinity (lines 86 and 87).  The credential check at lines 82 to 84 is
modelled where it takes effect, inside main below. -/
def evaluate_relevance (parse : String → Option PyFloat) (llm : String → String → String)
    (images : List Candidate) (text : String) : Option BestImage :=
  evalLoop parse llm text images none .ninf

/-- The (pick, score) pair a candidate contributes to the running-maximum
comparison, or none when lines 89 to 91 skip it. -/
def entryOf (parse : String → Option PyFloat) (llm : String → String → String)
    (text : String) (c : Candidate) : Option (BestImage × PyFloat) :=
  (resolveUrl c).map fun u => (⟨u, c.title.getD "Нет описания"⟩, scoreOf parse llm text u)

/-- The sequence of (pick, score) pairs actually compared by the loop,
in candidate order. -/
def entries (parse : String → Option PyFloat) (llm : String → String → String)
    (text : String) (images : List Candidate) : List (BestImage × PyFloat) :=
  images.filterMap (entryOf parse llm text)

/-- The running maximum with strict greater-than of lines 104 to 109,
as a fold over the compared (pick, score) pairs; the state is the pair
(best_image, best_score). -/
def runMax : List (BestImage × PyFloat) → Option BestImage × PyFloat →
    Option BestImage × PyFloat
  | [], st => st
  | (b, s) :: rest, (best, bs) =>
    if PyFloat.lt bs s then runMax rest (some b, s) else runMax rest (best, bs)

/-- A JSON value as the adapters look at it: either a dict, of which the
program reads only the items and images_results keys (extraKeys counts
any other keys, so that truthiness of the dict is observable), or a
non-dict value of which only Python truthiness matters. -/
inductive JsonVal where
  | jdict (items : Option (List Candidate)) (images_results : Option (List Candidate))
      (extraKeys : Nat)
  | jatom (truthy : Bool)
deriving DecidableEq, Repr

/-- Python truthiness of a JSON value: a dict is truthy when non-empty. -/
def jtruthy : JsonVal → Bool
  | .jdict items ir extra => items.isSome || ir.isSome || decide (extra ≠ 0)
  | .jatom t => t

/-- Outcome of a search adapter: the candidate list it returns, or the
AttributeError that data.get would raise on a truthy non-dict body (no
handler for it exists in the program). -/
inductive SearchResult where
  | ok (candidates : List Candidate)
  | attrError
deriving DecidableEq, Repr

/-- search_images_google, lines 50 to 63, applied to the value returned
by make_request_with_retries for its query (none models Python None,
covering both the exhausted-retries failure and a JSON null body):
if data is truthy, data.get(items, []), else the empty list. -/
def search_images_google (data : Option JsonVal) : SearchResult :=
  match data with
  | none => .ok []
  | some v =>
    if jtruthy v then
      match v with
      | .jdict items _ _ => .ok (items.getD [])
      | .jatom _ => .attrError
    else .ok []

/-- search_images_duckduckgo, lines 65 to 78, same shape with the
images_results key. -/
def search_images_duckduckgo (data : Option JsonVal) : SearchResult :=
  match data with
  | none => .ok []
  | some v =>
    if jtruthy v then
      match v with
      | .jdict _ images_results _ => .ok (images_results.getD [])
      | .jatom _ => .attrError
    else .ok []

/-- What one iteration of the retry loop observes for its GET, lines 24
to 33: a 429 status, a transport error raised by requests.get, a non-2xx
status raised by raise_for_status, a 2xx status whose body fails JSON
decoding (a requests JSONDecodeError, which subclasses RequestException
and is therefore caught by line 31), or a 2xx status with a decoded JSON
body (none standing for a null body, which Python returns as None). -/
inductive AttemptOutcome where
  | status429
  | transportError
  | httpError
  | badJson
  | ok (body : Option JsonVal)
deriving DecidableEq, Repr

/-- The for loop of make_request_with_retries, lines 22 to 33, with the
attempt counter, the remaining iterations and the list of sleep durations
performed so far made explicit.  Every outcome other than ok sleeps
2 ^ attempt time units and moves to the next attempt (line 27 for a 429,
line 33 for a caught RequestException); an ok outcome returns the decoded
body at once. -/
def retryLoop (responses : Nat → AttemptOutcome) :
    Nat → Nat → List Nat → Option JsonVal × List Nat
  | _, 0, sleeps => (none, sleeps)
  | attempt, rem + 1, sleeps =>
    match responses attempt with
    | .ok body => (body, sleeps)
    | _ => retryLoop responses (attempt + 1) rem (sleeps ++ [2 ^ attempt])

/-- make_request_with_retries, lines 20 to 35: runs the loop from attempt
0; when the loop exhausts max_retries attempts the function returns None
(line 35), reported here as a none first component, together with the
sleep durations performed. -/
def make_request_with_retries (responses : Nat → AttemptOutcome) (max_retries : Nat) :
    Option JsonVal × List Nat :=
  retryLoop responses 0 max_retries []

/-- The five environment variables read at lines 14 to 18; os.getenv
yields None for an absent variable. -/
structure Config where
  openai_api_key : Option String
  search_engine : Option String
  google_api_key : Option String
  google_cse_id : Option String
  serpapi_api_key : Option String
deriving DecidableEq, Repr

/-- Result of the configuration gate at the top of main: sys.exit(code)
or fall-through. -/
inductive ConfigCheck where
  | exitWith (code : Nat)
  | proceed
deriving DecidableEq, Repr

/-- Lines 115 to 128 of main: the OPENAI_API_KEY truthiness check, then
the SEARCH_ENGINE dispatch with the per-provider credential checks; any
failing check is sys.exit(1). -/
def configCheck (c : Config) : ConfigCheck :=
  if !strTruthy c.openai_api_key then .exitWith 1
  else if c.search_engine = some "google" then
    if !strTruthy c.google_api_key || !strTruthy c.google_cse_id then .exitWith 1
    else .proceed
  else if c.search_engine = some "duckduckgo" then
    if !strTruthy c.serpapi_api_key then .exitWith 1 else .proceed
  else .exitWith 1

/-- Observable outcome of a run of main: a sys.exit with the given code,
the unreachable invalid-engine report at lines 144 to 146, an uncaught
AttributeError out of an adapter, the report of line 149 (no images
found), the report of line 160 (no relevant image selected), or the
success report of lines 157 to 158. -/
inductive MainOutcome where
  | configExit (code : Nat)
  | invalidEngine
  | attrError
  | noImages
  | noBest
  | best (b : BestImage)
deriving DecidableEq, Repr

/-- Lines 148 to 160 of main: the emptiness test on the returned list,
then evaluate_relevance (whose own OPENAI_API_KEY recheck at lines 82 to
84 is the configExit branch) and the final report. -/
def mainScore (c : Config) (text : String) (parse : String → Option PyFloat)
    (llmScore : String → String → String) : SearchResult → MainOutcome
  | .attrError => .attrError
  | .ok images =>
    if images = [] then .noImages
    else if !strTruthy c.openai_api_key then .configExit 1
    else
      match evaluate_relevance parse llmScore images text with
      | some b => .best b
      | none => .noBest

/-- main, lines 112 to 160, with the external effects as inputs:
llmKeywords is the keyword-extraction model (its output is stripped at
line 48 and used verbatim as the query), fetchGoogle and fetchDuck give
the value make_request_with_retries returns for the query sent to the
respective provider, and parse with llmScore drive evaluate_relevance.
The recheck of OPENAI_API_KEY inside extract_keywords (lines 39 to 41)
is the inner configExit branch. -/
def main (c : Config) (text : String) (llmKeywords : String → String)
    (fetchGoogle fetchDuck : String → Option JsonVal)
    (parse : String → Option PyFloat) (llmScore : String → String → String) : MainOutcome :=
  match configCheck c with
  | .exitWith code => .configExit code
  | .proceed =>
    if !strTruthy c.openai_api_key then .configExit 1
    else
      let keywords := (llmKeywords text).trim
      if c.search_engine = some "google" then
        mainScore c text parse llmScore (search_images_google (fetchGoogle keywords))
      else if c.search_engine = some "duckduckgo" then
        mainScore c text parse llmScore (search_images_duckduckgo (fetchDuck keywords))
      else .invalidEngine

/-! Basic facts about the Python float comparison. -/

theorem PyFloat.lt_nan_right (a : PyFloat) : PyFloat.lt a .nan = false := by
  cases a <;> rfl

theorem PyFloat.lt_nan_left (b : PyFloat) : PyFloat.lt .nan b = false := by
  cases b <;> rfl

theorem PyFloat.lt_irrefl (a : PyFloat) : PyFloat.lt a a = false := by
  cases a <;> simp [PyFloat.lt]

theorem PyFloat.lt_asymm {a b : PyFloat} (h : PyFloat.lt a b = true) :
    PyFloat.lt b a = false := by
  cases a <;> cases b <;> simp_all [PyFloat.lt]
  exact le_of_lt h

theorem PyFloat.lt_trans {a b c : PyFloat} (h1 : PyFloat.lt a b = true)
    (h2 : PyFloat.lt b c = true) : PyFloat.lt a c = true := by
  cases a <;> cases b <;> cases c <;> simp_all [PyFloat.lt]
  exact h1.trans h2

theorem PyFloat.ne_nan_of_lt {a b : PyFloat} (h : PyFloat.lt a b = true) : b ≠ .nan := by
  intro hb
  rw [hb, PyFloat.lt_nan_right] at h
  exact Bool.false_ne_true h

/-- A value x strictly above some value, but neither above s nor equal to
s, is strictly below s, provided s is itself above minus infinity.  This
is the step that lets the running maximum strictly increase towards a
first-seen maximal score. -/
theorem PyFloat.lt_of_not_lt_of_ne {x s c : PyFloat} (h1 : PyFloat.lt c x = true)
    (h2 : PyFloat.lt s x = false) (h3 : x ≠ s) (h4 : PyFloat.lt .ninf s = true) :
    PyFloat.lt x s = true := by
  cases x <;> cases s <;> cases c <;> simp_all [PyFloat.lt] <;>
    exact lt_of_le_of_ne h2 h3

/-! The scoring loop as a running maximum over the compared entries. -/

theorem evalLoop_eq_runMax (parse : String → Option PyFloat)
    (llm : String → String → String) (text : String) :
    ∀ (images : List Candidate) (best : Option BestImage) (bs : PyFloat),
      evalLoop parse llm text images best bs
        = (runMax (entries parse llm text images) (best, bs)).1
  | [], best, bs => rfl
  | image :: rest, best, bs => by
    cases hres : resolveUrl image with
    | none =>
      simp only [evalLoop, hres, entries, List.filterMap_cons, entryOf, Option.map_none']
      exact evalLoop_eq_runMax parse llm text rest best bs
    | some u =>
      simp only [evalLoop, hres, entries, List.filterMap_cons, entryOf, Option.map_some',
        runMax]
      by_cases hlt : PyFloat.lt bs (scoreOf parse llm text u) = true
      · simp only [hlt, if_true]
        exact evalLoop_eq_runMax parse llm text rest _ _
      · simp only [Bool.not_eq_true] at hlt
        simp only [hlt, Bool.false_eq_true, if_false]
        exact evalLoop_eq_runMax parse llm text rest best bs

theorem runMax_keep (s : PyFloat) (b : Option BestImage) :
    ∀ l : List (BestImage × PyFloat), (∀ e ∈ l, PyFloat.lt s e.2 = false) →
      runMax l (b, s) = (b, s)
  | [], _ => rfl
  | (b1, s1) :: rest, h => by
    have hh := h (b1, s1) (List.mem_cons_self _ _)
    simp only [runMax, hh, Bool.false_eq_true, if_false]
    exact runMax_keep s b rest fun e he => h e (List.mem_cons_of_mem _ he)

/-- The running maximum lands on the first entry carrying a maximal score
s that exceeds the current accumulator, and stays there. -/
theorem runMax_first (s : PyFloat) (b : BestImage) (hs : PyFloat.lt .ninf s = true) :
    ∀ (l1 l2 : List (BestImage × PyFloat)) (cur : Option BestImage) (cs : PyFloat),
      PyFloat.lt cs s = true →
      (∀ e ∈ l1, PyFloat.lt s e.2 = false ∧ e.2 ≠ s) →
      (∀ e ∈ l2, PyFloat.lt s e.2 = false) →
      runMax (l1 ++ (b, s) :: l2) (cur, cs) = (some b, s)
  | [], l2, cur, cs, hcs, _, h2 => by
    simp only [List.nil_append, runMax, hcs, if_true]
    exact runMax_keep s (some b) l2 h2
  | (b1, s1) :: l1, l2, cur, cs, hcs, h1, h2 => by
    have hh := h1 (b1, s1) (List.mem_cons_self _ _)
    have h1r : ∀ e ∈ l1, PyFloat.lt s e.2 = false ∧ e.2 ≠ s :=
      fun e he => h1 e (List.mem_cons_of_mem _ he)
    simp only [List.cons_append, runMax]
    by_cases hlt : PyFloat.lt cs s1 = true
    · have hstep : PyFloat.lt s1 s = true :=
        PyFloat.lt_of_not_lt_of_ne hlt hh.1 hh.2 hs
      simp only [hlt, if_true]
      exact runMax_first s b hs l1 l2 (some b1) s1 hstep h1r h2
    · simp only [Bool.not_eq_true] at hlt
      simp only [hlt, Bool.false_eq_true, if_false]
      exact runMax_first s b hs l1 l2 cur cs hcs h1r h2

/-- Invariant of the running maximum: starting from a non-nan score, the
final state either is the initial state untouched, or comes from some
entry of the list whose score strictly beat the initial score; in every
case the final score is non-nan and no score in the list strictly
exceeds it. -/
theorem runMax_spec :
    ∀ (l : List (BestImage × PyFloat)) (best : Option BestImage) (bs : PyFloat),
      bs ≠ .nan →
      (runMax l (best, bs) = (best, bs) ∨
        ∃ e ∈ l, runMax l (best, bs) = (some e.1, e.2) ∧ PyFloat.lt bs e.2 = true) ∧
      (runMax l (best, bs)).2 ≠ .nan ∧
      (∀ e ∈ l, PyFloat.lt (runMax l (best, bs)).2 e.2 = false)
  | [], best, bs, hnan => by
    refine ⟨Or.inl rfl, hnan, ?_⟩
    intro e he
    exact absurd he (List.not_mem_nil e)
  | (b, s) :: rest, best, bs, hnan => by
    by_cases hlt : PyFloat.lt bs s = true
    · have hsnan : s ≠ .nan := PyFloat.ne_nan_of_lt hlt
      have ih := runMax_spec rest (some b) s hsnan
      have hrw : runMax ((b, s) :: rest) (best, bs) = runMax rest (some b, s) := by
        simp only [runMax, hlt, if_true]
      refine ⟨?_, by rw [hrw]; exact ih.2.1, ?_⟩
      · rcases ih.1 with h | ⟨e, he, heq, helt⟩
        · exact Or.inr ⟨(b, s), List.mem_cons_self _ _, by rw [hrw, h], hlt⟩
        · exact Or.inr ⟨e, List.mem_cons_of_mem _ he, by rw [hrw, heq],
            PyFloat.lt_trans hlt helt⟩
      · intro e he
        rw [hrw]
        rcases List.mem_cons.mp he with rfl | hmem
        · rcases ih.1 with h | ⟨e1, _, heq, helt⟩
          · rw [h]
            exact PyFloat.lt_irrefl s
          · rw [heq]
            exact PyFloat.lt_asymm helt
        · exact ih.2.2 e hmem
    · simp only [Bool.not_eq_true] at hlt
      have ih := runMax_spec rest best bs hnan
      have hrw : runMax ((b, s) :: rest) (best, bs) = runMax rest (best, bs) := by
        simp only [runMax, hlt, Bool.false_eq_true, if_false]
      refine ⟨?_, by rw [hrw]; exact ih.2.1, ?_⟩
      · rcases ih.1 with h | ⟨e, he, heq, helt⟩
        · exact Or.inl (by rw [hrw, h])
        · exact Or.inr ⟨e, List.mem_cons_of_mem _ he, by rw [hrw, heq], helt⟩
      · intro e he
        rw [hrw]
        rcases List.mem_cons.mp he with rfl | hmem
        · rcases ih.1 with h | ⟨e1, _, heq, helt⟩
          · rw [h]
            exact hlt
          · rw [heq]
            by_contra hc
            simp only [Bool.not_eq_false] at hc
            rw [PyFloat.lt_trans helt hc] at hlt
            exact Bool.noConfusion hlt
        · exact ih.2.2 e hmem

/-- Membership in the compared entries, unfolded down to the candidate. -/
theorem mem_entries_iff (parse : String → Option PyFloat) (llm : String → String → String)
    (text : String) (images : List Candidate) (e : BestImage × PyFloat) :
    e ∈ entries parse llm text images ↔
      ∃ c ∈ images, ∃ u, resolveUrl c = some u ∧
        e = (⟨u, c.title.getD "Нет описания"⟩, scoreOf parse llm text u) := by
  simp only [entries, List.mem_filterMap, entryOf]
  constructor
  · rintro ⟨c, hc, hmap⟩
    rcases Option.map_eq_some'.mp hmap with ⟨u, hu, he⟩
    exact ⟨c, hc, u, hu, he.symm⟩
  · rintro ⟨c, hc, u, hu, he⟩
    exact ⟨c, hc, by rw [hu, Option.map_some', ← he]⟩

/-! Facts about the retry loop. -/

/-- Any attempt outcome other than a successful ok sleeps 2 ^ attempt
time units and moves on to the next attempt. -/
theorem retryLoop_step (responses : Nat → AttemptOutcome) (attempt rem : Nat)
    (sleeps : List Nat) (h : ∀ b, responses attempt ≠ .ok b) :
    retryLoop responses attempt (rem + 1) sleeps
      = retryLoop responses (attempt + 1) rem (sleeps ++ [2 ^ attempt]) := by
  cases hout : responses attempt with
  | ok body => exact absurd hout (h body)
  | status429 => simp [retryLoop, hout]
  | transportError => simp [retryLoop, hout]
  | httpError => simp [retryLoop, hout]
  | badJson => simp [retryLoop, hout]

theorem retryLoop_all_fail (responses : Nat → AttemptOutcome) :
    ∀ (rem attempt : Nat) (sleeps : List Nat),
      (∀ i, attempt ≤ i → i < attempt + rem → ∀ b, responses i ≠ .ok b) →
      (retryLoop responses attempt rem sleeps).1 = none
  | 0, _, _, _ => rfl
  | rem + 1, attempt, sleeps, h => by
    rw [retryLoop_step responses attempt rem sleeps (h attempt le_rfl (by omega))]
    exact retryLoop_all_fail responses rem (attempt + 1) (sleeps ++ [2 ^ attempt])
      (fun i hi1 hi2 => h i (by omega) (by omega))

/-! Facts about the configuration gate and the orchestration. -/

theorem configCheck_proceed {c : Config} (h : configCheck c = .proceed) :
    strTruthy c.openai_api_key = true ∧
      (c.search_engine = some "google" ∨ c.search_engine = some "duckduckgo") := by
  by_cases hk : strTruthy c.openai_api_key = true
  · refine ⟨hk, ?_⟩
    by_cases hg : c.search_engine = some "google"
    · exact Or.inl hg
    · by_cases hd : c.search_engine = some "duckduckgo"
      · exact Or.inr hd
      · simp [configCheck, hk, hg, hd] at h
  · simp only [Bool.not_eq_true] at hk
    simp [configCheck, hk] at h

/-- With a truthy OPENAI_API_KEY, the post-search part of main only ever
produces a report, never a sys.exit. -/
theorem mainScore_ne_configExit {c : Config} (hk : strTruthy c.openai_api_key = true)
    (text : String) (parse : String → Option PyFloat)
    (llmScore : String → String → String) :
    ∀ (sr : SearchResult) (n : Nat), mainScore c text parse llmScore sr ≠ .configExit n
  | .attrError, _ => by simp [mainScore]
  | .ok images, n => by
    by_cases he : images = []
    · simp [mainScore, he]
    · simp only [mainScore, he, if_false, hk, Bool.not_true, Bool.false_eq_true]
      cases hbi : evaluate_relevance parse llmScore images text <;> simp [hbi]

/-- C1: when the responses to the attempts are 429, 429 and then a 200,
make_request_with_retries sleeps exactly twice, 2 ^ 0 then 2 ^ 1 time
units in that order, and returns the decoded JSON body of the 200
response; and a run of max_retries consecutive 429 responses makes it
return the failure signal None, with no exception escaping. -/
theorem fetch_retry_429_schedule :
    (∀ (responses : Nat → AttemptOutcome) (body : Option JsonVal) (max_retries : Nat),
      3 ≤ max_retries →
      responses 0 = .status429 → responses 1 = .status429 → responses 2 = .ok body →
      make_request_with_retries responses max_retries = (body, [2 ^ 0, 2 ^ 1])) ∧
    (∀ (responses : Nat → AttemptOutcome) (max_retries : Nat),
      (∀ i, i < max_retries → responses i = .status429) →
      (make_request_with_retries responses max_retries).1 = none) := by
  constructor
  · intro responses body max_retries hmr h0 h1 h2
    obtain ⟨k, rfl⟩ : ∃ k, max_retries = k + 3 := ⟨max_retries - 3, by omega⟩
    show retryLoop responses 0 (k + 3) [] = (body, [2 ^ 0, 2 ^ 1])
    have hk3 : k + 3 = k + 2 + 1 := by omega
    have hk2 : k + 2 = k + 1 + 1 := by omega
    rw [hk3, retryLoop_step responses 0 (k + 2) []
      (fun b hb => AttemptOutcome.noConfusion (h0.symm.trans hb))]
    rw [hk2, retryLoop_step responses 1 (k + 1) _
      (fun b hb => AttemptOutcome.noConfusion (h1.symm.trans hb))]
    simp [retryLoop, h2]
  · intro responses max_retries h
    exact retryLoop_all_fail responses max_retries 0 []
      (fun i hi1 hi2 b hb => AttemptOutcome.noConfusion
        ((h i (by omega)).symm.trans hb))

/-- C6: whenever no attempt succeeds within max_retries attempts, the
fetcher returns the failure signal None; and an attempt whose 2xx body
fails JSON decoding is caught like every other RequestException, sleeping
and retrying instead of raising. -/
theorem retries_exhausted_returns_none :
    (∀ (responses : Nat → AttemptOutcome) (max_retries : Nat),
      (∀ i, i < max_retries → ∀ b, responses i ≠ .ok b) →
      (make_request_with_retries responses max_retries).1 = none) ∧
    (∀ (responses : Nat → AttemptOutcome) (attempt rem : Nat) (sleeps : List Nat),
      responses attempt = .badJson →
      retryLoop responses attempt (rem + 1) sleeps
        = retryLoop responses (attempt + 1) rem (sleeps ++ [2 ^ attempt])) := by
  constructor
  · intro responses max_retries h
    exact retryLoop_all_fail responses max_retries 0 []
      (fun i hi1 hi2 => h i (by omega))
  · intro responses attempt rem sleeps h
    exact retryLoop_step responses attempt rem sleeps
      (fun b hb => AttemptOutcome.noConfusion (h.symm.trans hb))

/-- C7: a falsy OPENAI_API_KEY, a SEARCH_ENGINE other than google or
duckduckgo, or a missing credential of the selected provider each make
main exit with status 1 whatever the network and model would answer
(the conclusion holds for every effect function, so no call result is
consulted); with all required configuration present, the gate proceeds
and main never exits through a configuration check. -/
theorem config_check_gates_run (c : Config) :
    (strTruthy c.openai_api_key = false →
      ∀ (text : String) (lk : String → String) (fg fd : String → Option JsonVal)
        (p : String → Option PyFloat) (ls : String → String → String),
        main c text lk fg fd p ls = .configExit 1) ∧
    (c.search_engine ≠ some "google" → c.search_engine ≠ some "duckduckgo" →
      ∀ (text : String) (lk : String → String) (fg fd : String → Option JsonVal)
        (p : String → Option PyFloat) (ls : String → String → String),
        main c text lk fg fd p ls = .configExit 1) ∧
    (c.search_engine = some "google" →
      (strTruthy c.google_api_key = false ∨ strTruthy c.google_cse_id = false) →
      ∀ (text : String) (lk : String → String) (fg fd : String → Option JsonVal)
        (p : String → Option PyFloat) (ls : String → String → String),
        main c text lk fg fd p ls = .configExit 1) ∧
    (c.search_engine = some "duckduckgo" → strTruthy c.serpapi_api_key = false →
      ∀ (text : String) (lk : String → String) (fg fd : String → Option JsonVal)
        (p : String → Option PyFloat) (ls : String → String → String),
        main c text lk fg fd p ls = .configExit 1) ∧
    (strTruthy c.openai_api_key = true →
      (c.search_engine = some "google" →
        strTruthy c.google_api_key = true ∧ strTruthy c.google_cse_id = true) →
      (c.search_engine = some "duckduckgo" → strTruthy c.serpapi_api_key = true) →
      (c.search_engine = some "google" ∨ c.search_engine = some "duckduckgo") →
      configCheck c = .proceed ∧
      ∀ (text : String) (lk : String → String) (fg fd : String → Option JsonVal)
        (p : String → Option PyFloat) (ls : String → String → String) (n : Nat),
        main c text lk fg fd p ls ≠ .configExit n) := by
  refine ⟨?_, ?_, ?_, ?_, ?_⟩
  · intro h text lk fg fd p ls
    simp [main, configCheck, h]
  · intro hg hd text lk fg fd p ls
    cases hk : strTruthy c.openai_api_key <;> simp [main, configCheck, hk, hg, hd]
  · intro hg hcred text lk fg fd p ls
    cases hk : strTruthy c.openai_api_key
    · simp [main, configCheck, hk]
    · rcases hcred with hc | hc <;> simp [main, configCheck, hk, hg, hc]
  · intro hd hcred text lk fg fd p ls
    cases hk : strTruthy c.openai_api_key
    · simp [main, configCheck, hk]
    · by_cases hg : c.search_engine = some "google"
      · rw [hg] at hd
        simp at hd
      · simp [main, configCheck, hk, hg, hd, hcred]
  · intro hk hgc hdc heng
    have hcc : configCheck c = .proceed := by
      rcases heng with hg | hd
      · obtain ⟨h1, h2⟩ := hgc hg
        simp [configCheck, hk, hg, h1, h2]
      · by_cases hg : c.search_engine = some "google"
        · rw [hg] at hd
          simp at hd
        · simp [configCheck, hk, hg, hd, hdc hd]
    refine ⟨hcc, ?_⟩
    intro text lk fg fd p ls n
    rcases heng with he | he
    · simp only [main, hcc, hk, Bool.not_true, Bool.false_eq_true, if_false, he,
        if_true]
      exact mainScore_ne_configExit hk text p ls _ n
    · by_cases hg : c.search_engine = some "google"
      · rw [hg] at he
        simp at he
      · simp only [main, hcc, hk, Bool.not_true, Bool.false_eq_true, if_false, hg,
        he, if_true]
        exact mainScore_ne_configExit hk text p ls _ n

/-- C5: each adapter returns the empty list, raising nothing, when the
fetch failed outright (None) or the provider response holds zero items;
and whenever the selected adapter returns the empty list on a run that
passed the configuration gate, main reports that no images were found,
for every scoring oracle (so the scorer is never consulted). -/
theorem empty_search_reports_no_images :
    (search_images_google none = .ok []) ∧
    (search_images_duckduckgo none = .ok []) ∧
    (∀ (ir : Option (List Candidate)) (extra : Nat),
      search_images_google (some (.jdict (some []) ir extra)) = .ok []) ∧
    (∀ (it : Option (List Candidate)) (extra : Nat),
      search_images_duckduckgo (some (.jdict it (some []) extra)) = .ok []) ∧
    (∀ (c : Config) (text : String) (lk : String → String)
       (fg fd : String → Option JsonVal),
      configCheck c = .proceed →
      (c.search_engine = some "google" →
        search_images_google (fg ((lk text).trim)) = .ok []) →
      (c.search_engine = some "duckduckgo" →
        search_images_duckduckgo (fd ((lk text).trim)) = .ok []) →
      ∀ (p : String → Option PyFloat) (ls : String → String → String),
        main c text lk fg fd p ls = .noImages) := by
  refine ⟨rfl, rfl, ?_, ?_, ?_⟩
  · intro ir extra
    simp [search_images_google, jtruthy]
  · intro it extra
    simp [search_images_duckduckgo, jtruthy]
  · intro c text lk fg fd hcc hg hd p ls
    obtain ⟨hk, heng⟩ := configCheck_proceed hcc
    rcases heng with he | he
    · simp [main, hcc, hk, he, hg he, mainScore]
    · by_cases hgg : c.search_engine = some "google"
      · rw [hgg] at he
        simp at he
      · simp [main, hcc, hk, hgg, he, hd he, mainScore]

/-- C10: a fetch that succeeds with a falsy JSON body, or with a dict
lacking the expected list key (items for google, images_results for
duckduckgo), makes the adapter return the empty list, indistinguishable
from a response with no candidates. -/
theorem fieldless_body_empty_list :
    (∀ v : JsonVal, jtruthy v = false → search_images_google (some v) = .ok []) ∧
    (∀ v : JsonVal, jtruthy v = false → search_images_duckduckgo (some v) = .ok []) ∧
    (∀ (ir : Option (List Candidate)) (extra : Nat),
      search_images_google (some (.jdict none ir extra)) = .ok []) ∧
    (∀ (it : Option (List Candidate)) (extra : Nat),
      search_images_duckduckgo (some (.jdict it none extra)) = .ok []) := by
  refine ⟨?_, ?_, ?_, ?_⟩
  · intro v hv
    simp [search_images_google, hv]
  · intro v hv
    simp [search_images_duckduckgo, hv]
  · intro ir extra
    cases h : jtruthy (JsonVal.jdict none ir extra) <;>
      simp [search_images_google, h]
  · intro it extra
    cases h : jtruthy (JsonVal.jdict it none extra) <;>
      simp [search_images_duckduckgo, h]

/-- C2 counterexample: both candidates receive the score -inf (the float
builtin does return minus infinity for the completion "-inf"), so their
scores are equal and maximal, yet evaluate_relevance returns none rather
than the first of them, because -inf never strictly exceeds the -inf
sentinel. -/
theorem tie_first_counterexample :
    scoreOf (fun _ => some .ninf) (fun _ _ => "-inf") "t" "u1"
        = scoreOf (fun _ => some .ninf) (fun _ _ => "-inf") "t" "u2" ∧
    (∀ e ∈ entries (fun _ => some .ninf) (fun _ _ => "-inf") "t"
        [⟨some "u1", none, some "T1"⟩, ⟨some "u2", none, some "T2"⟩],
      PyFloat.lt (scoreOf (fun _ => some .ninf) (fun _ _ => "-inf") "t" "u1") e.2
        = false) ∧
    evaluate_relevance (fun _ => some .ninf) (fun _ _ => "-inf")
        [⟨some "u1", none, some "T1"⟩, ⟨some "u2", none, some "T2"⟩] "t" = none :=
  ⟨rfl, by decide, by decide⟩

/-- C2 (amended): when the compared entries contain two candidates whose
scores are equal and maximal, and that score strictly exceeds the -inf
sentinel, evaluate_relevance returns the first entry attaining it; and a
later entry whose score equals the current best score never replaces the
current best. -/
theorem tie_first_amended (parse : String → Option PyFloat)
    (llm : String → String → String) (text : String) (images : List Candidate)
    (s : PyFloat) (l1 l2 : List (BestImage × PyFloat)) (b : BestImage)
    (hsplit : entries parse llm text images = l1 ++ (b, s) :: l2)
    (hfirst : ∀ e ∈ l1, e.2 ≠ s)
    (hmax : ∀ e ∈ entries parse llm text images, PyFloat.lt s e.2 = false)
    (hsent : PyFloat.lt .ninf s = true)
    (htie : ∃ e ∈ l2, e.2 = s) :
    evaluate_relevance parse llm images text = some b ∧
    (∀ (l : List (BestImage × PyFloat)) (cur : Option BestImage)
       (e : BestImage × PyFloat), e.2 = s →
      runMax (e :: l) (cur, s) = runMax l (cur, s)) := by
  constructor
  · rw [evaluate_relevance, evalLoop_eq_runMax, hsplit]
    have h1 : ∀ e ∈ l1, PyFloat.lt s e.2 = false ∧ e.2 ≠ s := by
      intro e he
      refine ⟨hmax e ?_, hfirst e he⟩
      rw [hsplit]
      exact List.mem_append_left _ he
    have h2 : ∀ e ∈ l2, PyFloat.lt s e.2 = false := by
      intro e he
      refine hmax e ?_
      rw [hsplit]
      exact List.mem_append_right _ (List.mem_cons_of_mem _ he)
    rw [runMax_first s b hsent l1 l2 none .ninf hsent h1 h2]
  · intro l cur e he
    obtain ⟨e1, e2⟩ := e
    simp only at he
    subst he
    simp [runMax, PyFloat.lt_irrefl]

/-- C3: a candidate with a resolvable url whose completion fails float
parsing receives the score exactly 0; it still contributes its entry to
the compared sequence, and the result of evaluate_relevance is the
running maximum over that very sequence, so the candidate is not
skipped. -/
theorem parse_failure_scores_zero (parse : String → Option PyFloat)
    (llm : String → String → String) (text : String) (images : List Candidate)
    (c : Candidate) (u : String) (hc : c ∈ images) (hu : resolveUrl c = some u)
    (hparse : parse ((llm text u).trim) = none) :
    scoreOf parse llm text u = .finite 0 ∧
    (⟨u, c.title.getD "Нет описания"⟩, PyFloat.finite 0)
      ∈ entries parse llm text images ∧
    evaluate_relevance parse llm images text
      = (runMax (entries parse llm text images) (none, .ninf)).1 := by
  have hs : scoreOf parse llm text u = .finite 0 := by
    simp [scoreOf, hparse, scoreFromParse]
  refine ⟨hs, ?_, evalLoop_eq_runMax parse llm text images none .ninf⟩
  exact (mem_entries_iff parse llm text images _).mpr ⟨c, hc, u, hu, by rw [hs]⟩

/-- C4 counterexample: a candidate whose link key is present but holds
the empty string (and whose thumbnail is absent), so the candidate list
does have a candidate with a primary link field, yet evaluate_relevance
returns none: presence of the key is not enough, only a truthy value
counts. -/
theorem best_image_presence_counterexample :
    (∀ c ∈ ([⟨some "", none, some "T"⟩] : List Candidate), c.link.isSome = true) ∧
    evaluate_relevance (fun _ => none) (fun _ _ => "5")
        [⟨some "", none, some "T"⟩] "t" = none :=
  ⟨by decide, by decide⟩

/-- C4 (amended): if no candidate has a resolvable url then the result is
none; any returned pick carries the resolved url of some candidate in the
list together with that candidate title, or the placeholder when the
title is absent; and when some candidate has a resolvable url and every
resolved candidate score strictly exceeds the -inf sentinel (any parse
failure or finite parse does), a pick is returned whose score no compared
entry strictly exceeds. -/
theorem best_image_characterization (parse : String → Option PyFloat)
    (llm : String → String → String) (text : String) (images : List Candidate) :
    ((∀ c ∈ images, resolveUrl c = none) →
      evaluate_relevance parse llm images text = none) ∧
    (∀ b, evaluate_relevance parse llm images text = some b →
      ∃ c ∈ images, resolveUrl c = some b.url ∧
        b.description = c.title.getD "Нет описания") ∧
    ((∀ c ∈ images, ∀ u, resolveUrl c = some u →
        PyFloat.lt .ninf (scoreOf parse llm text u) = true) →
      ∀ c0 ∈ images, (resolveUrl c0).isSome = true →
      ∃ b, evaluate_relevance parse llm images text = some b ∧
        (∃ c ∈ images, resolveUrl c = some b.url ∧
          b.description = c.title.getD "Нет описания") ∧
        ∀ e ∈ entries parse llm text images,
          PyFloat.lt (scoreOf parse llm text b.url) e.2 = false) := by
  refine ⟨?_, ?_, ?_⟩
  · intro hnone
    have hemp : entries parse llm text images = [] := by
      rw [entries, List.filterMap_eq_nil_iff]
      intro c hc
      simp [entryOf, hnone c hc]
    rw [evaluate_relevance, evalLoop_eq_runMax, hemp]
    rfl
  · intro b hb
    rw [evaluate_relevance, evalLoop_eq_runMax] at hb
    have hspec := runMax_spec (entries parse llm text images) none .ninf (by simp)
    rcases hspec.1 with h | ⟨e, he, heq, _⟩
    · rw [h] at hb
      exact Option.noConfusion hb
    · rw [heq] at hb
      obtain ⟨c, hc, u, hu, hee⟩ := (mem_entries_iff parse llm text images e).mp he
      have hb1 : e.1 = b := Option.some.inj hb
      refine ⟨c, hc, ?_, ?_⟩
      · rw [← hb1, hee]
        exact hu
      · rw [← hb1, hee]
  · intro hscores c0 hc0 hres
    obtain ⟨u0, hu0⟩ := Option.isSome_iff_exists.mp hres
    have he0 : (⟨u0, c0.title.getD "Нет описания"⟩, scoreOf parse llm text u0)
        ∈ entries parse llm text images :=
      (mem_entries_iff parse llm text images _).mpr ⟨c0, hc0, u0, hu0, rfl⟩
    have hgt := hscores c0 hc0 u0 hu0
    have hrw : evaluate_relevance parse llm images text
        = (runMax (entries parse llm text images) (none, .ninf)).1 :=
      evalLoop_eq_runMax parse llm text images none .ninf
    have hspec := runMax_spec (entries parse llm text images) none .ninf (by simp)
    rcases hspec.1 with h | ⟨e, he, heq, _⟩
    · have h2 : PyFloat.lt .ninf (scoreOf parse llm text u0) = false := by
        have h3 := hspec.2.2 _ he0
        rw [h] at h3
        exact h3
      rw [hgt] at h2
      exact Bool.noConfusion h2
    · obtain ⟨c, hc, u, hu, hee⟩ := (mem_entries_iff parse llm text images e).mp he
      refine ⟨e.1, by rw [hrw, heq], ⟨c, hc, ?_, ?_⟩, ?_⟩
      · rw [hee]
        exact hu
      · rw [hee]
      · intro e1 he1
        have h3 := hspec.2.2 e1 he1
        rw [heq] at h3
        have h4 : e.2 = scoreOf parse llm text e.1.url := by
          rw [hee]
        rw [← h4]
        exact h3

/-- C8: as soon as one candidate has a resolvable url, and every resolved
candidate completion either fails float parsing or parses to a finite
value, evaluate_relevance returns some pick: even a score of 0 from a
parse failure strictly exceeds the -inf sentinel, so the no-pick outcome
requires that no candidate had a resolvable url. -/
theorem resolvable_candidate_yields_some (parse : String → Option PyFloat)
    (llm : String → String → String) (text : String) (images : List Candidate)
    (c0 : Candidate) (hc0 : c0 ∈ images) (hres : (resolveUrl c0).isSome = true)
    (hfin : ∀ c ∈ images, ∀ u, resolveUrl c = some u →
      parse ((llm text u).trim) = none ∨
        ∃ q : ℚ, parse ((llm text u).trim) = some (.finite q)) :
    (evaluate_relevance parse llm images text).isSome = true := by
  obtain ⟨u0, hu0⟩ := Option.isSome_iff_exists.mp hres
  have he0 : (⟨u0, c0.title.getD "Нет описания"⟩, scoreOf parse llm text u0)
      ∈ entries parse llm text images :=
    (mem_entries_iff parse llm text images _).mpr ⟨c0, hc0, u0, hu0, rfl⟩
  have hgt : PyFloat.lt .ninf (scoreOf parse llm text u0) = true := by
    rcases hfin c0 hc0 u0 hu0 with h | ⟨q, h⟩ <;>
      simp [scoreOf, h, scoreFromParse, PyFloat.lt]
  rw [evaluate_relevance, evalLoop_eq_runMax]
  have hspec := runMax_spec (entries parse llm text images) none .ninf (by simp)
  rcases hspec.1 with h | ⟨e, he, heq, _⟩
  · have h2 : PyFloat.lt .ninf (scoreOf parse llm text u0) = false := by
      have h3 := hspec.2.2 _ he0
      rw [h] at h3
      exact h3
    rw [hgt] at h2
    exact Bool.noConfusion h2
  · rw [heq]
    rfl

/-- C9: url resolution tests truthiness, not key presence: a link key
holding the empty string behaves exactly like an absent link key, a
non-empty thumbnail is then used, a candidate whose link and thumbnail
are each absent or empty resolves to no url, and such a candidate is
skipped by the loop without affecting its state. -/
theorem url_truthiness_resolution :
    (∀ (th ti : Option String),
      resolveUrl ⟨some "", th, ti⟩ = resolveUrl ⟨none, th, ti⟩) ∧
    (∀ (u : String) (ti : Option String), u ≠ "" →
      resolveUrl ⟨some "", some u, ti⟩ = some u) ∧
    (∀ c : Candidate,
      (c.link = none ∨ c.link = some "") →
      (c.thumbnail = none ∨ c.thumbnail = some "") →
      resolveUrl c = none) ∧
    (∀ (parse : String → Option PyFloat) (llm : String → String → String)
       (text : String) (c : Candidate) (rest : List Candidate)
       (best : Option BestImage) (bs : PyFloat),
      resolveUrl c = none →
      evalLoop parse llm text (c :: rest) best bs
        = evalLoop parse llm text rest best bs) := by
  refine ⟨?_, ?_, ?_, ?_⟩
  · intro th ti
    simp [resolveUrl, pyOr]
  · intro u ti hu
    simp [resolveUrl, pyOr, hu]
  · rintro c (h1 | h1) (h2 | h2) <;> simp [resolveUrl, pyOr, h1, h2]
  · intro parse llm text c rest best bs hres
    simp [evalLoop, hres]

/-! Closed witnesses: concrete evaluations of the theorems above. -/

/-- A float parse oracle that always fails (every completion is
malformed). -/
def pZero : String → Option PyFloat := fun _ => none

/-- A language model that always answers with the text 5. -/
def llmFive : String → String → String := fun _ _ => "5"

/-- A language model that always answers with the text N/A. -/
def llmNA : String → String → String := fun _ _ => "N/A"

theorem fetch_retry_429_schedule_witness :
    make_request_with_retries
        (fun n => if n = 0 then .status429 else if n = 1 then .status429
          else .ok (some (.jdict (some []) none 0))) 5
      = (some (.jdict (some []) none 0), [2 ^ 0, 2 ^ 1]) ∧
    (make_request_with_retries (fun _ => .status429) 5).1 = none :=
  ⟨fetch_retry_429_schedule.1 _ _ 5 (by omega) rfl rfl rfl,
    fetch_retry_429_schedule.2 _ 5 (fun i _ => rfl)⟩

theorem retries_exhausted_returns_none_witness :
    (make_request_with_retries (fun _ => .badJson) 5).1 = none ∧
    retryLoop (fun _ => .badJson) 0 5 []
      = retryLoop (fun _ => .badJson) 1 4 ([] ++ [2 ^ 0]) :=
  ⟨retries_exhausted_returns_none.1 _ 5
      (fun _ _ _ hb => AttemptOutcome.noConfusion hb),
    retries_exhausted_returns_none.2 _ 0 4 [] rfl⟩

theorem config_check_gates_run_witness :
    main ⟨none, some "google", some "g", some "i", some "s"⟩ "t" (fun _ => "kw")
        (fun _ => none) (fun _ => none) pZero llmFive = .configExit 1 ∧
    main ⟨some "k", some "bing", some "g", some "i", some "s"⟩ "t" (fun _ => "kw")
        (fun _ => none) (fun _ => none) pZero llmFive = .configExit 1 ∧
    main ⟨some "k", some "google", none, some "i", some "s"⟩ "t" (fun _ => "kw")
        (fun _ => none) (fun _ => none) pZero llmFive = .configExit 1 ∧
    main ⟨some "k", some "duckduckgo", some "g", some "i", none⟩ "t" (fun _ => "kw")
        (fun _ => none) (fun _ => none) pZero llmFive = .configExit 1 ∧
    configCheck ⟨some "k", some "google", some "g", some "i", none⟩ = .proceed ∧
    main ⟨some "k", some "google", some "g", some "i", none⟩ "t" (fun _ => "kw")
        (fun _ => none) (fun _ => none) pZero llmFive ≠ .configExit 1 := by
  refine ⟨?_, ?_, ?_, ?_, ?_, ?_⟩
  · exact (config_check_gates_run ⟨none, some "google", some "g", some "i", some "s"⟩).1
      (by decide) "t" (fun _ => "kw") (fun _ => none) (fun _ => none) pZero llmFive
  · exact (config_check_gates_run ⟨some "k", some "bing", some "g", some "i", some "s"⟩).2.1
      (by decide) (by decide) "t" (fun _ => "kw") (fun _ => none) (fun _ => none)
      pZero llmFive
  · exact (config_check_gates_run ⟨some "k", some "google", none, some "i", some "s"⟩).2.2.1
      (by decide) (Or.inl (by decide)) "t" (fun _ => "kw") (fun _ => none)
      (fun _ => none) pZero llmFive
  · exact (config_check_gates_run ⟨some "k", some "duckduckgo", some "g", some "i", none⟩).2.2.2.1
      (by decide) (by decide) "t" (fun _ => "kw") (fun _ => none) (fun _ => none)
      pZero llmFive
  · exact ((config_check_gates_run ⟨some "k", some "google", some "g", some "i", none⟩).2.2.2.2
      (by decide) (fun _ => ⟨by decide, by decide⟩)
      (fun hq => absurd hq (by decide)) (Or.inl (by decide))).1
  · exact ((config_check_gates_run ⟨some "k", some "google", some "g", some "i", none⟩).2.2.2.2
      (by decide) (fun _ => ⟨by decide, by decide⟩)
      (fun hq => absurd hq (by decide)) (Or.inl (by decide))).2 "t" (fun _ => "kw")
      (fun _ => none) (fun _ => none) pZero llmFive 1

theorem empty_search_reports_no_images_witness :
    search_images_google (some (.jdict (some []) none 3)) = .ok [] ∧
    main ⟨some "k", some "google", some "g", some "i", none⟩ "t" (fun _ => "kw")
        (fun _ => none) (fun _ => none) pZero llmFive = .noImages :=
  ⟨empty_search_reports_no_images.2.2.1 none 3,
    empty_search_reports_no_images.2.2.2.2
      ⟨some "k", some "google", some "g", some "i", none⟩ "t" (fun _ => "kw")
      (fun _ => none) (fun _ => none) (by decide)
      (fun _ => rfl) (fun hq => absurd hq (by decide)) pZero llmFive⟩

theorem fieldless_body_empty_list_witness :
    search_images_google (some (.jatom false)) = .ok [] ∧
    search_images_duckduckgo (some (.jatom false)) = .ok [] ∧
    search_images_google
        (some (.jdict none (some [⟨some "u", none, none⟩]) 2)) = .ok [] ∧
    search_images_duckduckgo
        (some (.jdict (some [⟨some "u", none, none⟩]) none 2)) = .ok [] :=
  ⟨fieldless_body_empty_list.1 _ rfl, fieldless_body_empty_list.2.1 _ rfl,
    fieldless_body_empty_list.2.2.1 (some [⟨some "u", none, none⟩]) 2,
    fieldless_body_empty_list.2.2.2 (some [⟨some "u", none, none⟩]) 2⟩

theorem tie_first_amended_witness :
    evaluate_relevance (fun _ => some (.finite 7)) llmFive
        [⟨some "u1", none, some "T1"⟩, ⟨some "u2", none, some "T2"⟩] "t"
      = some ⟨"u1", "T1"⟩ :=
  (tie_first_amended (fun _ => some (.finite 7)) llmFive "t"
    [⟨some "u1", none, some "T1"⟩, ⟨some "u2", none, some "T2"⟩] (.finite 7)
    [] [(⟨"u2", "T2"⟩, .finite 7)] ⟨"u1", "T1"⟩ (by decide) (by decide) (by decide)
    (by decide) ⟨(⟨"u2", "T2"⟩, .finite 7), by decide, rfl⟩).1

theorem parse_failure_scores_zero_witness :
    scoreOf pZero llmNA "t" "u" = .finite 0 ∧
    (⟨"u", "T"⟩, PyFloat.finite 0)
      ∈ entries pZero llmNA "t" [⟨some "u", none, some "T"⟩] ∧
    evaluate_relevance pZero llmNA [⟨some "u", none, some "T"⟩] "t"
      = (runMax (entries pZero llmNA "t" [⟨some "u", none, some "T"⟩])
          (none, .ninf)).1 :=
  parse_failure_scores_zero pZero llmNA "t" [⟨some "u", none, some "T"⟩]
    ⟨some "u", none, some "T"⟩ "u" (by decide) (by decide) rfl

theorem best_image_characterization_witness :
    evaluate_relevance pZero llmFive [⟨none, none, some "T"⟩] "t" = none ∧
    (∃ b, evaluate_relevance pZero llmFive [⟨some "u", none, none⟩] "t" = some b ∧
      (∃ c ∈ ([⟨some "u", none, none⟩] : List Candidate),
        resolveUrl c = some b.url ∧ b.description = c.title.getD "Нет описания") ∧
      ∀ e ∈ entries pZero llmFive "t" [⟨some "u", none, none⟩],
        PyFloat.lt (scoreOf pZero llmFive "t" b.url) e.2 = false) :=
  ⟨(best_image_characterization pZero llmFive "t" _).1 (by decide),
    (best_image_characterization pZero llmFive "t" _).2.2 (fun _ _ _ _ => rfl)
      ⟨some "u", none, none⟩ (by decide) (by decide)⟩

theorem resolvable_candidate_yields_some_witness :
    (evaluate_relevance pZero llmFive [⟨some "u", none, none⟩] "t").isSome = true :=
  resolvable_candidate_yields_some pZero llmFive "t" [⟨some "u", none, none⟩]
    ⟨some "u", none, none⟩ (by decide) (by decide) (fun _ _ _ _ => Or.inl rfl)

theorem url_truthiness_resolution_witness :
    resolveUrl ⟨some "", some "u", none⟩ = some "u" ∧
    resolveUrl ⟨some "", some "", none⟩ = none ∧
    evalLoop pZero llmFive "t" [⟨none, none, none⟩] none .ninf
      = evalLoop pZero llmFive "t" [] none .ninf :=
  ⟨url_truthiness_resolution.2.1 "u" none (by decide),
    url_truthiness_resolution.2.2.1 ⟨some "", some "", none⟩ (Or.inr rfl) (Or.inr rfl),
    url_truthiness_resolution.2.2.2 pZero llmFive "t" ⟨none, none, none⟩ [] none
      .ninf rfl⟩

end ImageFinder
